import Mathlib

/-!
Shallow embedding of the Riteway admin API server (src/server.js, first
revision, lines 1-202) together with theorems checking the natural-language
specification against it.

JavaScript numbers appearing in records are modelled as rationals (`Rat`),
strings as `String`, and a field that may be absent as an `Option`.  The
JavaScript `a || b` defaulting idiom is modelled by explicit helpers whose
semantics follow JS truthiness (absent, the empty string and the number 0
are falsy).  Handlers are pure functions over an explicit `World` holding
the external stores; the driver-details handler additionally returns the
ordered list of store reads it performed, so that short-circuiting can be
stated.
-/

namespace Riteway

/-- Model of a dynamic JSON value as stored in a rating's `rating` field:
a number, a string, JSON `null`, or an absent (`undefined`) value. -/
inductive JVal
  | num (q : Rat)
  | str (s : String)
  | null
  | undef
deriving DecidableEq, Repr

/-- Model of JavaScript `String.prototype.toLowerCase` (character-wise
lowering of the underlying character list). -/
def jsToLower (s : String) : String := String.mk (s.data.map Char.toLower)

/-- Model of `a || b` where `a` is an optional string and `b` a string
constant: an absent or empty string falls through to the default. -/
def jsOrS (a : Option String) (b : String) : String :=
  match a with
  | some s => if s = "" then b else s
  | none => b

/-- Model of `a || null` for an optional string: a falsy (absent or empty)
value becomes `null` (`none`), anything else is kept. -/
def jsOrNullS (a : Option String) : Option String :=
  match a with
  | some s => if s = "" then none else some s
  | none => none

/-- Model of `a || d` for an optional number: an absent or zero value falls
through to the default `d`. -/
def jsOrQ (a : Option Rat) (d : Rat) : Rat :=
  match a with
  | some q => if q = 0 then d else q
  | none => d

/-- Model of JavaScript `Number(v)` coercion on the value shapes that occur
in rating records; `none` stands for `NaN`.  Strings are coerced as JS
does on the relevant fragment: the empty string to 0, a decimal numeral to
its value, anything else to `NaN`. -/
def jsNumber : JVal → Option Rat
  | .num q => some q
  | .str s => if s = "" then some 0 else (s.toNat?).map (fun n => (n : Rat))
  | .null => some 0
  | .undef => none

/-- Model of `Number(v) || 0`: `NaN` (and 0 itself) yield 0. -/
def jsNumOr0 (v : JVal) : Rat := (jsNumber v).getD 0

/-- JS truthiness of a dynamic value. -/
def jsTruthyV : JVal → Bool
  | .num q => q != 0
  | .str s => s != ""
  | .null => false
  | .undef => false

/-- Model of `v || null` on a dynamic value. -/
def jsOrNullV (v : JVal) : JVal := if jsTruthyV v then v else .null

/-- Raw `details` object of a delivery record; every field may be absent. -/
structure Details where
  customerName : Option String := none
  address : Option String := none
  items : Option String := none
  yards : Option Rat := none
  revenue : Option Rat := none
  profit : Option Rat := none
  assignedDriverEmail : Option String := none
  assignedDriverUid : Option String := none
deriving DecidableEq, Repr

/-- Raw delivery record as stored under `deliveries`. -/
structure Delivery where
  status : Option String := none
  details : Option Details := none
  createdAt : Option String := none
deriving DecidableEq, Repr

/-- Identity record held by the auth store (`metadata` fields inlined). -/
structure Identity where
  uid : String
  email : Option String := none
  displayName : Option String := none
  phoneNumber : Option String := none
  disabled : Bool := false
  creationTime : Option String := none
  lastSignInTime : Option String := none
deriving DecidableEq, Repr

/-- Raw scale-ticket record stored under a per-driver partition. -/
structure TicketRaw where
  url : Option String := none
  fileName : Option String := none
  uploadedAt : Option String := none
  loadId : Option String := none
deriving DecidableEq, Repr

/-- Raw rating record stored under a per-driver partition. -/
structure RatingRaw where
  rating : JVal := .undef
  comment : Option String := none
  customerName : Option String := none
  loadId : Option String := none
  createdAt : Option String := none
deriving DecidableEq, Repr

/-- State of the external stores seen by one request: the auth store's
identity records, the `deliveries` collection (absent modelled as `none`),
and the per-driver `scaleTickets` and `driverRatings` partitions. -/
structure World where
  identities : List Identity
  deliveries : Option (List (String × Delivery))
  scaleTickets : String → Option (List (String × TicketRaw))
  driverRatings : String → Option (List (String × RatingRaw))

/-- Load summary pushed into the `loads` array (lines 129-139). -/
structure Load where
  id : String
  status : String
  customerName : String
  address : String
  items : String
  yards : Rat
  revenue : Rat
  profit : Rat
  createdAt : Option String
deriving DecidableEq, Repr

/-- Projected ticket entry (lines 146-152). -/
structure TicketOut where
  id : String
  url : String
  fileName : String
  uploadedAt : Option String
  loadId : Option String
deriving DecidableEq, Repr

/-- Projected rating entry (lines 157-164). -/
structure RatingOut where
  id : String
  rating : JVal
  comment : String
  customerName : String
  loadId : Option String
  createdAt : Option String
deriving DecidableEq, Repr

/-- User projection appearing in responses. -/
structure UserOut where
  uid : String
  email : Option String
  displayName : Option String
  phoneNumber : Option String
  disabled : Bool
  creationTime : Option String
  lastSignInTime : Option String
deriving DecidableEq, Repr

/-- Derived statistics block. -/
structure Stats where
  totalLoads : Nat
  totalTickets : Nat
  totalRatings : Nat
  avgRating : Option Rat
deriving DecidableEq, Repr

/-- Body of a successful driver-details response. -/
structure DriverSummary where
  user : UserOut
  loads : List Load
  tickets : List TicketOut
  ratings : List RatingOut
  stats : Stats
deriving DecidableEq, Repr

/-- Model of `obj.details` defaulted to the empty object (line 118). -/
def Delivery.jsDetails (d : Delivery) : Details := d.details.getD {}

/-- Email disjunct of the match predicate (line 126):
`userRecord.email && assignedEmail === userRecord.email.toLowerCase()`,
where `assignedEmail` is `(details.assignedDriverEmail || '').toLowerCase()`. -/
def codeEmailMatch (email : Option String) (d : Delivery) : Bool :=
  match email with
  | some e =>
    if e = "" then false
    else jsToLower (jsOrS d.jsDetails.assignedDriverEmail "") == jsToLower e
  | none => false

/-- Uid disjunct of the match predicate (lines 123 and 127):
`assignedUid === uid` with `assignedUid = details.assignedDriverUid || null`. -/
def codeUidMatch (uid : String) (d : Delivery) : Bool :=
  jsOrNullS d.jsDetails.assignedDriverUid == some uid

/-- Full match predicate of the deliveries scan (lines 125-128). -/
def codeMatch (email : Option String) (uid : String) (d : Delivery) : Bool :=
  codeEmailMatch email d || codeUidMatch uid d

/-- Projection of a matching delivery into a load summary (lines 129-139). -/
def projectLoad (id : String) (d : Delivery) : Load :=
  let dts := d.jsDetails
  { id := id
    status := jsOrS d.status "pending"
    customerName := jsOrS dts.customerName ""
    address := jsOrS dts.address ""
    items := jsOrS dts.items ""
    yards := jsOrQ dts.yards 0
    revenue := jsOrQ dts.revenue 0
    profit := jsOrQ dts.profit 0
    createdAt := jsOrNullS d.createdAt }

/-- Projection of a raw ticket entry (lines 146-152). -/
def projectTicket (id : String) (t : TicketRaw) : TicketOut :=
  { id := id
    url := jsOrS t.url ""
    fileName := jsOrS t.fileName ""
    uploadedAt := jsOrNullS t.uploadedAt
    loadId := jsOrNullS t.loadId }

/-- Projection of a raw rating entry (lines 157-164). -/
def projectRating (id : String) (r : RatingRaw) : RatingOut :=
  { id := id
    rating := jsOrNullV r.rating
    comment := jsOrS r.comment ""
    customerName := jsOrS r.customerName ""
    loadId := jsOrNullS r.loadId
    createdAt := jsOrNullS r.createdAt }

/-- Model of `admin.auth().getUser(uid)` succeeding: lookup by uid. -/
def findIdentity (w : World) (uid : String) : Option Identity :=
  w.identities.find? (fun u => u.uid == uid)

/-- Model of `deliveriesSnap.val()` defaulted to the empty object (line 114). -/
def jsDeliveries (w : World) : List (String × Delivery) := w.deliveries.getD []

/-- Body of the driver-details try block after the identity lookup
succeeded with record `u` (lines 112-192). -/
def buildSummary (w : World) (uid : String) (u : Identity) : DriverSummary :=
  let loads := (jsDeliveries w).filterMap (fun kv =>
    if codeMatch u.email uid kv.2 then some (projectLoad kv.1 kv.2) else none)
  let tickets := ((w.scaleTickets uid).getD []).map (fun kv => projectTicket kv.1 kv.2)
  let ratings := ((w.driverRatings uid).getD []).map (fun kv => projectRating kv.1 kv.2)
  let avgRating : Option Rat :=
    if ratings.length = 0 then none
    else some ((ratings.foldl (fun acc r => acc + jsNumOr0 r.rating) 0) / (ratings.length : Rat))
  { user :=
      { uid := u.uid
        email := jsOrNullS u.email
        displayName := jsOrNullS u.displayName
        phoneNumber := jsOrNullS u.phoneNumber
        disabled := u.disabled
        creationTime := jsOrNullS u.creationTime
        lastSignInTime := jsOrNullS u.lastSignInTime }
    loads := loads
    tickets := tickets
    ratings := ratings
    stats :=
      { totalLoads := loads.length
        totalTickets := tickets.length
        totalRatings := ratings.length
        avgRating := avgRating } }

/-- Which external store a step of the handler read. -/
inductive ReadOp
  | identityRead
  | deliveriesRead
  | ticketsRead
  | ratingsRead
deriving DecidableEq, Repr

/-- Outcome of the driver-details handler.  The code maps every throw of
the try block, including the user-not-found throw of `getUser`, to the
single 500 response of the catch block (lines 193-196). -/
inductive Response
  | ok (body : DriverSummary)
  | badRequest
  | serverError
deriving DecidableEq, Repr

/-- HTTP status of a driver-details response. -/
def statusOf : Response → Nat
  | .ok _ => 200
  | .badRequest => 400
  | .serverError => 500

/-- Model of the GET driver-details handler (lines 101-197), paired with
the ordered list of store reads it performed. -/
def driverDetails (w : World) (uidQ : Option String) : Response × List ReadOp :=
  match uidQ with
  | none => (.badRequest, [])
  | some uid =>
    if uid = "" then (.badRequest, [])
    else
      match findIdentity w uid with
      | none => (.serverError, [.identityRead])
      | some u =>
        (.ok (buildSummary w uid u),
         [.identityRead, .deliveriesRead, .ticketsRead, .ratingsRead])

/-- Outcome of the DELETE handler (lines 90-98): every failure of
`deleteUser`, including user-not-found, lands in the catch block's 500. -/
inductive DeleteResponse
  | ok
  | serverError
deriving DecidableEq, Repr

/-- HTTP status of a delete response. -/
def deleteStatus : DeleteResponse → Nat
  | .ok => 200
  | .serverError => 500

/-- Model of the DELETE drivers handler: returns the response and the auth
store contents afterwards. -/
def deleteDriver (ids : List Identity) (uid : String) :
    DeleteResponse × List Identity :=
  match ids.find? (fun u => u.uid == uid) with
  | some _ => (.ok, ids.filter (fun u => u.uid != uid))
  | none => (.serverError, ids)

/-- Model of `a || b` on two optional string channels with JS truthiness. -/
def jsOrOpt (a b : Option String) : Option String :=
  match a with
  | some s => if s = "" then b else s
  | none => b

/-- Model of the requireAdminKey middleware (lines 47-58): the effective
key is the first truthy of the two headers and the query parameter, and
the request is admitted (`true`) iff that key is truthy and equals the
configured admin key. -/
def requireAdminKey (h1 h2 qk : Option String) (adminKey : String) : Bool :=
  match jsOrOpt h1 (jsOrOpt h2 qk) with
  | none => false
  | some k => if k = "" then false else k == adminKey

/-- Projection of an identity record in the GET drivers listing
(lines 69-77); no defaulting is applied there. -/
def projectUser (u : Identity) : UserOut :=
  { uid := u.uid
    email := u.email
    displayName := u.displayName
    phoneNumber := u.phoneNumber
    disabled := u.disabled
    creationTime := u.creationTime
    lastSignInTime := u.lastSignInTime }

/-- Mock paged identity adapter: `admin.auth().listUsers(1000, token)`
against a fixed page list, a continuation token being the index of the
next page; the response carries a token exactly when a further page
exists. -/
def listUsersPage (pages : List (List Identity)) (tok : Nat) :
    List Identity × Option Nat :=
  (pages.getD tok [], if tok + 1 < pages.length then some (tok + 1) else none)

/-- The do-while pagination loop of the GET drivers handler (lines 63-80):
request a page, append its projections, continue while a token came back.
The `fuel` argument is a modelling device bounding the token chain; the
handler supplies `pages.length`, which the chain never exceeds. -/
def listDriversGo (pages : List (List Identity)) : Nat → Nat → List UserOut
  | 0, tok => ((listUsersPage pages tok).1).map projectUser
  | fuel + 1, tok =>
    match (listUsersPage pages tok).2 with
    | some t => ((listUsersPage pages tok).1).map projectUser ++ listDriversGo pages fuel t
    | none => ((listUsersPage pages tok).1).map projectUser

/-- Model of the GET drivers handler body. -/
def listDrivers (pages : List (List Identity)) : List UserOut :=
  listDriversGo pages pages.length 0

/-- Spec-side email predicate: the delivery's assigned email equals the
driver's identity email case-insensitively, a missing field on either
side never matching. -/
def specEmailMatch (email ae : Option String) : Bool :=
  match email, ae with
  | some e, some a => jsToLower a == jsToLower e
  | _, _ => false

/-- Spec-side match predicate, following the specification's words: the
delivery's `assignedDriverEmail` equals the driver's identity email
case-insensitively, or its assigned driver id equals the driver id, a
missing field never matching.  Declared for comparison with `codeMatch`. -/
def specMatches (email : Option String) (uid : String) (d : Delivery) : Bool :=
  specEmailMatch email d.jsDetails.assignedDriverEmail
  || (d.jsDetails.assignedDriverUid == some uid)

/-- Spec-side rating coercion, following the specification's words: the
rating's value coerced to a number, a non-numeric or missing value
contributing 0.  Declared for comparison with the code's
`Number(r.rating) || 0` applied to the projected rating. -/
def specCoerce (v : JVal) : Rat := (jsNumber v).getD 0

/-- A world in which every store is empty. -/
def emptyWorld : World :=
  { identities := []
    deliveries := none
    scaleTickets := fun _ => none
    driverRatings := fun _ => none }

/-- Identity fixture with a mixed-case email. -/
def c2User : Identity := { uid := "d1", email := some "A@B.com" }

/-- World fixture: deliveries matching by lowercased email, by both
fields, by neither, by uid only, and by a different email. -/
def c2World : World :=
  { identities := [c2User]
    deliveries := some
      [("L1", { details := some { assignedDriverEmail := some "a@b.com" } }),
       ("L2", { details := some { assignedDriverEmail := some "a@B.com", assignedDriverUid := some "d1" } }),
       ("L3", {}),
       ("L4", { details := some { assignedDriverUid := some "d1" } }),
       ("L5", { details := some { assignedDriverEmail := some "other@b.com" } })]
    scaleTickets := fun _ => none
    driverRatings := fun _ => none }

/-- Identity fixture without an email. -/
def c10User : Identity := { uid := "dx" }

/-- World fixture for the email-less driver: one delivery assigned by
uid, one by an email only, one with an empty-string assigned email. -/
def c10World : World :=
  { identities := [c10User]
    deliveries := some
      [("A", { details := some { assignedDriverUid := some "dx" } }),
       ("B", { details := some { assignedDriverEmail := some "x@y.z" } }),
       ("C", { details := some { assignedDriverEmail := some "" } })]
    scaleTickets := fun _ => none
    driverRatings := fun _ => none }

/-- Identity fixture for the rating average. -/
def c3User : Identity := { uid := "d3" }

/-- World fixture whose rating partition holds the values 5, 3 and null. -/
def c3World : World :=
  { identities := [c3User]
    deliveries := none
    scaleTickets := fun _ => none
    driverRatings := fun u =>
      if u = "d3" then
        some [("r1", { rating := .num 5 }), ("r2", { rating := .num 3 }), ("r3", { rating := .null })]
      else none }

/-- Identity fixture with an email that matches no delivery. -/
def c6User : Identity := { uid := "d6", email := some "z@z.dev" }

/-- World fixture: identity present, one delivery assigned to somebody
else, both partitions absent. -/
def c6World : World :=
  { identities := [c6User]
    deliveries := some
      [("L1", { details := some { assignedDriverEmail := some "other@q.dev", assignedDriverUid := some "dq" } })]
    scaleTickets := fun _ => none
    driverRatings := fun _ => none }

/-- Delivery fixture with some optional fields present, others absent. -/
def c4Obj : Delivery :=
  { status := some "delivered"
    details := some { customerName := some "Acme", yards := some 7 }
    createdAt := none }

/-- Mock identity record carrying a uid distinct for every index. -/
def c8User (n : Nat) : Identity := { uid := String.mk (List.replicate n 'a') }

/-- Mock page list of sizes 1000, 1000 and 37 with pairwise distinct
entries. -/
def c8Pages : List (List Identity) :=
  [(List.range' 0 1000).map c8User,
   (List.range' 1000 1000).map c8User,
   (List.range' 2000 37).map c8User]

/-! Helper lemmas shared by the claim theorems. -/

theorem jsToLower_ne_empty {s : String} (h : s ≠ "") : jsToLower s ≠ "" := by
  intro hc
  apply h
  have hd : s.data.map Char.toLower = [] := congrArg String.data hc
  have hnil : s.data = [] := List.map_eq_nil_iff.mp hd
  cases s
  simp_all

theorem filterMap_if_eq {α β : Type} (p : α → Bool) (f : α → β) :
    ∀ l : List α,
      (l.filterMap fun x => if p x then some (f x) else none) = (l.filter p).map f
  | [] => rfl
  | x :: xs => by
    by_cases h : p x <;>
      simp [List.filterMap_cons, List.filter_cons, h, filterMap_if_eq p f xs]

theorem jsToLower_empty : jsToLower "" = "" := rfl

theorem codeUidMatch_eq {uid : String} (hu : uid ≠ "") (d : Delivery) :
    codeUidMatch uid d = (d.jsDetails.assignedDriverUid == some uid) := by
  unfold codeUidMatch jsOrNullS
  cases hau : d.jsDetails.assignedDriverUid with
  | none => rfl
  | some a =>
    by_cases ha : a = ""
    · subst ha
      simp [hu, Ne.symm hu]
    · simp [ha]

theorem codeEmailMatch_eq (email : Option String) (d : Delivery)
    (he : email ≠ some "") :
    codeEmailMatch email d = specEmailMatch email d.jsDetails.assignedDriverEmail := by
  cases email with
  | none => rfl
  | some e =>
    have hne : e ≠ "" := fun hh => he (by rw [hh])
    unfold codeEmailMatch jsOrS specEmailMatch
    simp only [hne, if_false]
    cases hae : d.jsDetails.assignedDriverEmail with
    | none =>
      have hlow : jsToLower "" ≠ jsToLower e := by
        rw [jsToLower_empty]
        exact fun hh => jsToLower_ne_empty hne hh.symm
      simp [hlow]
    | some a =>
      by_cases ha : a = ""
      · subst ha
        simp [jsToLower]
      · simp [ha]

theorem codeMatch_eq_spec {email : Option String} {uid : String}
    (he : email ≠ some "") (hu : uid ≠ "") (d : Delivery) :
    codeMatch email uid d = specMatches email uid d := by
  unfold codeMatch specMatches
  rw [codeUidMatch_eq hu, codeEmailMatch_eq email d he]

theorem ok_uid_ne {w : World} {uid : String} {s : DriverSummary}
    (h : (driverDetails w (some uid)).1 = .ok s) : uid ≠ "" := by
  intro hc
  subst hc
  simp [driverDetails] at h

theorem ok_eq_build {w : World} {uid : String} {u : Identity} {s : DriverSummary}
    (hu : findIdentity w uid = some u)
    (h : (driverDetails w (some uid)).1 = .ok s) : s = buildSummary w uid u := by
  have hne := ok_uid_ne h
  simp [driverDetails, hne, hu] at h
  exact h.symm

theorem foldl_add_eq_sum {α : Type} (f : α → Rat) :
    ∀ (l : List α) (a : Rat),
      l.foldl (fun acc x => acc + f x) a = a + (l.map f).sum
  | [], a => by simp
  | x :: xs, a => by
    simp [List.foldl_cons, foldl_add_eq_sum f xs, add_assoc]

theorem buildSummary_loads (w : World) (uid : String) (u : Identity) :
    (buildSummary w uid u).loads = (jsDeliveries w).filterMap
      (fun kv => if codeMatch u.email uid kv.2 then some (projectLoad kv.1 kv.2) else none) := rfl

theorem buildSummary_tickets (w : World) (uid : String) (u : Identity) :
    (buildSummary w uid u).tickets =
      ((w.scaleTickets uid).getD []).map (fun kv => projectTicket kv.1 kv.2) := rfl

theorem buildSummary_ratings (w : World) (uid : String) (u : Identity) :
    (buildSummary w uid u).ratings =
      ((w.driverRatings uid).getD []).map (fun kv => projectRating kv.1 kv.2) := rfl

theorem jsNumOr0_proj (v : JVal) : jsNumOr0 (jsOrNullV v) = specCoerce v := by
  cases v with
  | num q =>
    by_cases hq : q = 0 <;>
      simp [jsNumOr0, jsOrNullV, jsTruthyV, jsNumber, specCoerce, hq]
  | str s =>
    by_cases hs : s = "" <;>
      simp [jsNumOr0, jsOrNullV, jsTruthyV, jsNumber, specCoerce, hs]
  | null => rfl
  | undef => rfl

theorem buildSummary_avg (w : World) (uid : String) (u : Identity) :
    (buildSummary w uid u).stats.avgRating =
      (if ((w.driverRatings uid).getD []).length = 0 then none
       else some
         ((((w.driverRatings uid).getD []).map (fun kv => specCoerce kv.2.rating)).sum /
           (((w.driverRatings uid).getD []).length : Rat))) := by
  show (if (((w.driverRatings uid).getD []).map (fun kv => projectRating kv.1 kv.2)).length = 0
        then none
        else some
          (((((w.driverRatings uid).getD []).map (fun kv => projectRating kv.1 kv.2)).foldl
              (fun acc r => acc + jsNumOr0 r.rating) 0) /
            (((((w.driverRatings uid).getD []).map (fun kv => projectRating kv.1 kv.2)).length : Nat) : Rat))) = _
  rw [foldl_add_eq_sum (fun r : RatingOut => jsNumOr0 r.rating), List.map_map,
    List.length_map]
  have hfun : ((fun r : RatingOut => jsNumOr0 r.rating) ∘ fun kv : String × RatingRaw => projectRating kv.1 kv.2) =
      (fun kv : String × RatingRaw => specCoerce kv.2.rating) := by
    funext kv
    show jsNumOr0 (projectRating kv.1 kv.2).rating = specCoerce kv.2.rating
    show jsNumOr0 (jsOrNullV kv.2.rating) = specCoerce kv.2.rating
    exact jsNumOr0_proj kv.2.rating
  rw [hfun, zero_add]

theorem jsOrQ_zero (a : Option Rat) : jsOrQ a 0 = a.getD 0 := by
  cases a with
  | none => rfl
  | some q => by_cases hq : q = 0 <;> simp [jsOrQ, hq]

theorem jsOrS_empty (a : Option String) : jsOrS a "" = a.getD "" := by
  cases a with
  | none => rfl
  | some s => by_cases hs : s = "" <;> simp [jsOrS, hs]


/-! Claim theorems. -/

/-- Claim C1, counterexample: in a world whose identity store has no
record for the requested driver id, the driver-details handler answers
500, not the 404 the claim asserts — the catch block does not translate
the user-not-found throw of `getUser` into NotFound. -/
theorem claimC1_counterexample :
    findIdentity emptyWorld "u1" = none ∧
    statusOf (driverDetails emptyWorld (some "u1")).1 = 500 ∧
    statusOf (driverDetails emptyWorld (some "u1")).1 ≠ 404 := by
  decide

/-- Claim C1, amended: for every driver id for which the identity lookup
reports the record absent, the aggregate operation fails with the generic
StoreError response (HTTP 500); no NotFound (404) case is distinguished. -/
theorem claimC1_amended (w : World) (uid : String) (h : uid ≠ "")
    (hfind : findIdentity w uid = none) :
    (driverDetails w (some uid)).1 = .serverError ∧
    statusOf (driverDetails w (some uid)).1 = 500 := by
  simp [driverDetails, h, hfind, statusOf]

/-- Witness for the amended claim C1 at a concrete world. -/
theorem claimC1_witness :
    (("u1" : String) ≠ "" ∧ findIdentity emptyWorld "u1" = none) ∧
    ((driverDetails emptyWorld (some "u1")).1 = .serverError ∧
     statusOf (driverDetails emptyWorld (some "u1")).1 = 500) :=
  ⟨⟨by decide, by decide⟩, claimC1_amended emptyWorld "u1" (by decide) (by decide)⟩

/-- Claim C5, counterexample: deleting a driver id absent from the
identity store answers 500, not the 404 the claim asserts — the DELETE
handler's catch block does not translate user-not-found into NotFound. -/
theorem claimC5_counterexample :
    (([] : List Identity).find? (fun u => u.uid == "u1") = none) ∧
    deleteStatus (deleteDriver [] "u1").1 = 500 ∧
    deleteStatus (deleteDriver [] "u1").1 ≠ 404 := by
  decide

/-- Claim C5, amended: for every driver id whose identity record does not
exist, deleteDriver returns the generic StoreError response (HTTP 500);
the record-not-found signal is not distinguished from other failures, and
the store is left unchanged. -/
theorem claimC5_amended (ids : List Identity) (uid : String)
    (h : ids.find? (fun u => u.uid == uid) = none) :
    (deleteDriver ids uid).1 = .serverError ∧
    deleteStatus (deleteDriver ids uid).1 = 500 ∧
    (deleteDriver ids uid).2 = ids := by
  simp [deleteDriver, h, deleteStatus]

/-- Witness for the amended claim C5 at a concrete store. -/
theorem claimC5_witness :
    (([] : List Identity).find? (fun u => u.uid == "u1") = none) ∧
    ((deleteDriver [] "u1").1 = .serverError ∧
     deleteStatus (deleteDriver [] "u1").1 = 500 ∧
     (deleteDriver [] "u1").2 = ([] : List Identity)) :=
  ⟨by decide, claimC5_amended [] "u1" (by decide)⟩

/-- Claim C7: when the identity lookup fails, the handler performs the
identity read only — it never reads the deliveries collection, the ticket
partition or the rating partition. -/
theorem claimC7_shortCircuit (w : World) (uid : String) (huid : uid ≠ "")
    (hfind : findIdentity w uid = none) :
    (driverDetails w (some uid)).2 = [ReadOp.identityRead] ∧
    ReadOp.deliveriesRead ∉ (driverDetails w (some uid)).2 ∧
    ReadOp.ticketsRead ∉ (driverDetails w (some uid)).2 ∧
    ReadOp.ratingsRead ∉ (driverDetails w (some uid)).2 := by
  simp [driverDetails, huid, hfind]

/-- Witness for claim C7 at a concrete world. -/
theorem claimC7_witness :
    (("u2" : String) ≠ "" ∧ findIdentity emptyWorld "u2" = none) ∧
    ((driverDetails emptyWorld (some "u2")).2 = [ReadOp.identityRead] ∧
     ReadOp.deliveriesRead ∉ (driverDetails emptyWorld (some "u2")).2 ∧
     ReadOp.ticketsRead ∉ (driverDetails emptyWorld (some "u2")).2 ∧
     ReadOp.ratingsRead ∉ (driverDetails emptyWorld (some "u2")).2) :=
  ⟨⟨by decide, by decide⟩, claimC7_shortCircuit emptyWorld "u2" (by decide) (by decide)⟩

/-- Claim C9, counterexample: a request carrying the correct admin key
"k" in the query-parameter channel is nevertheless rejected when the
first header channel holds a different value, because the handler takes
the first truthy channel and compares only that one — so presenting the
correct secret through one of the three channels does not guarantee
admission, contrary to the claim. -/
theorem claimC9_counterexample :
    requireAdminKey (some "bad") none (some "k") "k" = false ∧
    ("k" : String) ≠ "" := by
  decide

/-- Claim C9, amended: the effective secret is the first truthy value
among the two header channels and the query parameter, in that order;
the request is admitted iff that effective value exists and equals the
configured admin key, and is rejected with 401 otherwise.  In particular
the correct secret presented through any one channel while the earlier
channels are absent is admitted, and a request with no secret at all is
rejected. -/
theorem claimC9_amended (h1 h2 qk : Option String) (ak : String) (hak : ak ≠ "") :
    (requireAdminKey h1 h2 qk ak = true ↔ jsOrOpt h1 (jsOrOpt h2 qk) = some ak) ∧
    requireAdminKey (some ak) h2 qk ak = true ∧
    requireAdminKey none (some ak) qk ak = true ∧
    requireAdminKey none none (some ak) ak = true ∧
    requireAdminKey none none none ak = false := by
  refine ⟨?_, ?_, ?_, ?_, ?_⟩
  · cases hk : jsOrOpt h1 (jsOrOpt h2 qk) with
    | none => simp [requireAdminKey, hk]
    | some k =>
      by_cases hke : k = ""
      · subst hke
        simp [requireAdminKey, hk]
        exact fun hh => hak hh.symm
      · simp [requireAdminKey, hk, hke]
  · simp [requireAdminKey, jsOrOpt, hak]
  · simp [requireAdminKey, jsOrOpt, hak]
  · simp [requireAdminKey, jsOrOpt, hak]
  · simp [requireAdminKey, jsOrOpt]

/-- Witness for the amended claim C9 at concrete channel values. -/
theorem claimC9_witness :
    (("k" : String) ≠ "") ∧ requireAdminKey none none (some "k") "k" = true :=
  ⟨by decide, (claimC9_amended none none (some "k") "k" (by decide)).2.2.2.1⟩

/-- Claim C2: for a driver whose identity record exists (with a
well-formed email, i.e. not the empty string), the loads sequence equals
the in-order projection of exactly those deliveries satisfying the
spec's predicate — assigned email equal to the identity email
case-insensitively, or assigned driver id equal to the driver id — each
matching delivery contributing exactly one entry; and a delivery with
both assignment fields missing never satisfies the predicate. -/
theorem claimC2_loads (w : World) (uid : String) (u : Identity) (s : DriverSummary)
    (hu : findIdentity w uid = some u) (he : u.email ≠ some "")
    (hok : (driverDetails w (some uid)).1 = .ok s) :
    s.loads = ((jsDeliveries w).filter (fun kv => specMatches u.email uid kv.2)).map
        (fun kv => projectLoad kv.1 kv.2) ∧
    (∀ d : Delivery, d.jsDetails.assignedDriverEmail = none →
        d.jsDetails.assignedDriverUid = none → specMatches u.email uid d = false) := by
  have hne := ok_uid_ne hok
  have hs := ok_eq_build hu hok
  subst hs
  refine ⟨?_, ?_⟩
  · rw [buildSummary_loads, filterMap_if_eq]
    have hp : (fun kv : String × Delivery => codeMatch u.email uid kv.2) =
        (fun kv : String × Delivery => specMatches u.email uid kv.2) :=
      funext fun kv => codeMatch_eq_spec he hne kv.2
    rw [hp]
  · intro d h1 h2
    cases hmail : u.email with
    | none => simp [specMatches, specEmailMatch, h1, h2]
    | some e => simp [specMatches, specEmailMatch, h1, h2]

/-- Witness for claim C2 at a concrete world exercising the email-case
match, the both-fields match, the uid-only match, the no-fields case and
a non-matching email. -/
theorem claimC2_witness :
    (findIdentity c2World "d1" = some c2User ∧ c2User.email ≠ some "" ∧
     (driverDetails c2World (some "d1")).1 = .ok (buildSummary c2World "d1" c2User)) ∧
    (buildSummary c2World "d1" c2User).loads =
      ((jsDeliveries c2World).filter (fun kv => specMatches c2User.email "d1" kv.2)).map
        (fun kv => projectLoad kv.1 kv.2) :=
  ⟨⟨by decide, by decide, by decide⟩,
   (claimC2_loads c2World "d1" c2User (buildSummary c2World "d1" c2User)
      (by decide) (by decide) (by decide)).1⟩

/-- Claim C10: when the driver's identity record has no email, a
delivery is included in loads exactly when its assigned driver uid
equals the driver id; the email disjunct of the predicate is constantly
false, and an absent or empty assigned email never produces a spurious
match. -/
theorem claimC10_uidOnly (w : World) (uid : String) (u : Identity) (s : DriverSummary)
    (hu : findIdentity w uid = some u) (he : u.email = none)
    (hok : (driverDetails w (some uid)).1 = .ok s) :
    s.loads = ((jsDeliveries w).filter
        (fun kv => kv.2.jsDetails.assignedDriverUid == some uid)).map
        (fun kv => projectLoad kv.1 kv.2) ∧
    (∀ d : Delivery, codeEmailMatch u.email d = false) ∧
    (∀ d : Delivery, codeMatch u.email uid d = (d.jsDetails.assignedDriverUid == some uid)) := by
  have hne := ok_uid_ne hok
  have hs := ok_eq_build hu hok
  subst hs
  have hcm : ∀ d : Delivery,
      codeMatch u.email uid d = (d.jsDetails.assignedDriverUid == some uid) := by
    intro d
    unfold codeMatch
    rw [he]
    have h0 : codeEmailMatch none d = false := rfl
    rw [h0, Bool.false_or, codeUidMatch_eq hne]
  refine ⟨?_, ?_, hcm⟩
  · rw [buildSummary_loads, filterMap_if_eq]
    have hp : (fun kv : String × Delivery => codeMatch u.email uid kv.2) =
        (fun kv : String × Delivery => kv.2.jsDetails.assignedDriverUid == some uid) :=
      funext fun kv => hcm kv.2
    rw [hp]
  · intro d
    rw [he]
    rfl

/-- Witness for claim C10 at a concrete world with an email-less driver. -/
theorem claimC10_witness :
    (findIdentity c10World "dx" = some c10User ∧ c10User.email = none ∧
     (driverDetails c10World (some "dx")).1 = .ok (buildSummary c10World "dx" c10User)) ∧
    (buildSummary c10World "dx" c10User).loads =
      ((jsDeliveries c10World).filter
        (fun kv => kv.2.jsDetails.assignedDriverUid == some "dx")).map
        (fun kv => projectLoad kv.1 kv.2) :=
  ⟨⟨by decide, by decide, by decide⟩,
   (claimC10_uidOnly c10World "dx" c10User (buildSummary c10World "dx" c10User)
      (by decide) (by decide) (by decide)).1⟩

/-- Claim C4: the load projection carries every optional numeric field
as the stored value when present and 0 when absent, every optional
string field as the stored value when present and the empty string when
absent, and createdAt as null when absent; by its type no field of the
projection can be undefined. -/
theorem claimC4_projection (id : String) (obj : Delivery) :
    (projectLoad id obj).yards = obj.jsDetails.yards.getD 0 ∧
    (projectLoad id obj).revenue = obj.jsDetails.revenue.getD 0 ∧
    (projectLoad id obj).profit = obj.jsDetails.profit.getD 0 ∧
    (projectLoad id obj).customerName = obj.jsDetails.customerName.getD "" ∧
    (projectLoad id obj).address = obj.jsDetails.address.getD "" ∧
    (projectLoad id obj).items = obj.jsDetails.items.getD "" ∧
    (obj.createdAt = none → (projectLoad id obj).createdAt = none) := by
  refine ⟨?_, ?_, ?_, ?_, ?_, ?_, ?_⟩
  · simp [projectLoad, jsOrQ_zero]
  · simp [projectLoad, jsOrQ_zero]
  · simp [projectLoad, jsOrQ_zero]
  · simp [projectLoad, jsOrS_empty]
  · simp [projectLoad, jsOrS_empty]
  · simp [projectLoad, jsOrS_empty]
  · intro h
    simp [projectLoad, jsOrNullS, h]

/-- Witness for claim C4 at a concrete delivery with a present numeric
field, a present string field and an absent createdAt. -/
theorem claimC4_witness :
    (projectLoad "L9" c4Obj).yards = c4Obj.jsDetails.yards.getD 0 ∧
    (projectLoad "L9" c4Obj).customerName = c4Obj.jsDetails.customerName.getD "" ∧
    c4Obj.createdAt = none ∧
    (projectLoad "L9" c4Obj).createdAt = none :=
  ⟨(claimC4_projection "L9" c4Obj).1,
   (claimC4_projection "L9" c4Obj).2.2.2.1,
   rfl,
   (claimC4_projection "L9" c4Obj).2.2.2.2.2.2 rfl⟩

/-- Claim C3: the average rating of an aggregate result is null exactly
when the rating partition contributes zero entries, and otherwise equals
the arithmetic mean of the spec-side coercion of each rating's value
(non-numeric or missing contributing 0 to the sum while counting in the
denominator). -/
theorem claimC3_avg (w : World) (uid : String) (s : DriverSummary)
    (hok : (driverDetails w (some uid)).1 = .ok s) :
    (s.stats.avgRating = none ↔ ((w.driverRatings uid).getD []).length = 0) ∧
    (((w.driverRatings uid).getD []).length ≠ 0 →
      s.stats.avgRating = some
        ((((w.driverRatings uid).getD []).map (fun kv => specCoerce kv.2.rating)).sum /
          (((w.driverRatings uid).getD []).length : Rat))) := by
  have hne := ok_uid_ne hok
  rcases hfi : findIdentity w uid with _ | u
  · exfalso
    simp [driverDetails, hne, hfi] at hok
  · have hs := ok_eq_build hfi hok
    subst hs
    rw [buildSummary_avg]
    constructor
    · by_cases hl : ((w.driverRatings uid).getD []).length = 0 <;> simp [hl]
    · intro hl
      simp [hl]

/-- Witness for claim C3: ratings 5, 3 and null average to 8/3. -/
theorem claimC3_witness :
    ((driverDetails c3World (some "d3")).1 = .ok (buildSummary c3World "d3" c3User)) ∧
    (buildSummary c3World "d3" c3User).stats.avgRating = some (8 / 3) := by
  refine ⟨by rfl, ?_⟩
  have h := (claimC3_avg c3World "d3" (buildSummary c3World "d3" c3User) (by rfl)).2
      (by decide)
  rw [h]
  norm_num [c3World, specCoerce, jsNumber]

/-- Claim C6: for a driver whose identity record exists, with no
matching deliveries and with both the ticket and the rating partition
absent, the aggregate succeeds and returns empty loads, tickets and
ratings together with all-zero counts and a null average. -/
theorem claimC6_empty (w : World) (uid : String) (u : Identity)
    (huid : uid ≠ "") (hu : findIdentity w uid = some u)
    (hT : w.scaleTickets uid = none) (hR : w.driverRatings uid = none)
    (hD : ∀ kv ∈ jsDeliveries w, codeMatch u.email uid kv.2 = false) :
    (driverDetails w (some uid)).1 = .ok (buildSummary w uid u) ∧
    (buildSummary w uid u).loads = [] ∧
    (buildSummary w uid u).tickets = [] ∧
    (buildSummary w uid u).ratings = [] ∧
    (buildSummary w uid u).stats = ⟨0, 0, 0, none⟩ := by
  have hload : (buildSummary w uid u).loads = [] := by
    rw [buildSummary_loads, List.filterMap_eq_nil_iff]
    intro kv hkv
    simp [hD kv hkv]
  have htick : (buildSummary w uid u).tickets = [] := by
    rw [buildSummary_tickets, hT]
    rfl
  have hrat : (buildSummary w uid u).ratings = [] := by
    rw [buildSummary_ratings, hR]
    rfl
  have havg : (buildSummary w uid u).stats.avgRating = none := by
    rw [buildSummary_avg, hR]
    rfl
  have hstats : (buildSummary w uid u).stats =
      { totalLoads := (buildSummary w uid u).loads.length
        totalTickets := (buildSummary w uid u).tickets.length
        totalRatings := (buildSummary w uid u).ratings.length
        avgRating := (buildSummary w uid u).stats.avgRating } := rfl
  refine ⟨?_, hload, htick, hrat, ?_⟩
  · simp [driverDetails, huid, hu]
  · rw [hstats, hload, htick, hrat, havg]
    rfl

/-- Witness for claim C6 at a concrete world with one non-matching
delivery and absent partitions. -/
theorem claimC6_witness :
    (("d6" : String) ≠ "" ∧ findIdentity c6World "d6" = some c6User ∧
     c6World.scaleTickets "d6" = none ∧ c6World.driverRatings "d6" = none) ∧
    ((driverDetails c6World (some "d6")).1 = .ok (buildSummary c6World "d6" c6User) ∧
     (buildSummary c6World "d6" c6User).loads = [] ∧
     (buildSummary c6World "d6" c6User).tickets = [] ∧
     (buildSummary c6World "d6" c6User).ratings = [] ∧
     (buildSummary c6World "d6" c6User).stats = ⟨0, 0, 0, none⟩) :=
  ⟨⟨by decide, by decide, by decide, by decide⟩,
   claimC6_empty c6World "d6" c6User (by decide) (by decide) (by decide) (by decide)
     (by decide)⟩

/-- The final page of the mock adapter: when the token chain has reached
its last valid position, the page fetched equals the flattening of the
remaining suffix of the page list. -/
theorem getD_eq_flatten_drop (pages : List (List Identity)) (tok : Nat)
    (h : pages.length ≤ tok + 1) : pages.getD tok [] = (pages.drop tok).flatten := by
  rcases Nat.lt_or_ge tok pages.length with htok | htok
  · rw [List.drop_eq_getElem_cons htok, List.drop_eq_nil_of_le (by omega)]
    simp [List.getD_eq_getElem?_getD, List.getElem?_eq_getElem htok]
  · rw [List.drop_eq_nil_of_le htok]
    simp [List.getD_eq_getElem?_getD, List.getElem?_eq_none htok]

/-- The pagination loop, started at token `tok` with enough fuel, yields
the projections of all records from page `tok` onwards in order. -/
theorem listDriversGo_spec (pages : List (List Identity)) :
    ∀ (fuel tok : Nat), pages.length ≤ tok + fuel + 1 →
      listDriversGo pages fuel tok = ((pages.drop tok).flatten).map projectUser
  | 0, tok, h => by
    simp only [listDriversGo, listUsersPage]
    rw [getD_eq_flatten_drop pages tok (by omega)]
  | fuel + 1, tok, h => by
    have hfirst : ((listUsersPage pages tok).1) = pages.getD tok [] := rfl
    by_cases hlt : tok + 1 < pages.length
    · have hpage : (listUsersPage pages tok).2 = some (tok + 1) := by
        simp [listUsersPage, hlt]
      simp only [listDriversGo, hpage]
      rw [listDriversGo_spec pages fuel (tok + 1) (by omega)]
      have htok : tok < pages.length := by omega
      have hgetd : pages.getD tok [] = pages[tok] := by
        simp [List.getD_eq_getElem?_getD, List.getElem?_eq_getElem htok]
      rw [hfirst, hgetd, List.drop_eq_getElem_cons htok, List.flatten_cons,
        List.map_append]
    · have hpage : (listUsersPage pages tok).2 = none := by
        simp [listUsersPage, hlt]
      simp only [listDriversGo, hpage]
      rw [hfirst, getD_eq_flatten_drop pages tok (by omega)]

/-- The listing handler concatenates all pages in order. -/
theorem listDrivers_eq_flatten (pages : List (List Identity)) :
    listDrivers pages = pages.flatten.map projectUser := by
  unfold listDrivers
  rw [listDriversGo_spec pages pages.length 0 (by omega)]
  rw [List.drop_zero]

/-- The concrete three-page mock flattens to the first 2037 indices. -/
theorem c8Pages_flatten : c8Pages.flatten = (List.range' 0 2037).map c8User := by
  simp only [c8Pages, List.flatten_cons, List.flatten_nil, List.append_nil]
  rw [← List.map_append, ← List.map_append]
  have h1 := List.range'_append_1 1000 1000 37
  have h2 := List.range'_append_1 0 1000 1037
  norm_num at h1 h2
  rw [h1, h2]

/-- Distinctness of the projected mock records. -/
theorem c8inj : Function.Injective (projectUser ∘ c8User) := by
  intro a b hab
  have h1 : String.mk (List.replicate a 'a') = String.mk (List.replicate b 'a') :=
    congrArg UserOut.uid hab
  have h2 : List.replicate a 'a' = List.replicate b 'a' := congrArg String.data h1
  have h3 := congrArg List.length h2
  simpa using h3

/-- Claim C8: the listing handler returns the in-order concatenation of
all pages obtained by chaining continuation tokens, stopping exactly when
a response carries no token; at the mock with page sizes 1000, 1000 and
37 the result has exactly 2037 pairwise distinct entries. -/
theorem claimC8_pagination :
    (∀ pages : List (List Identity), listDrivers pages = pages.flatten.map projectUser) ∧
    (listDrivers c8Pages).length = 2037 ∧
    (listDrivers c8Pages).Nodup := by
  refine ⟨listDrivers_eq_flatten, ?_, ?_⟩
  · rw [listDrivers_eq_flatten, c8Pages_flatten, List.map_map, List.length_map,
      List.length_range']
  · rw [listDrivers_eq_flatten, c8Pages_flatten, List.map_map]
    exact List.Nodup.map c8inj (List.nodup_range' _ _)

end Riteway
